import Mathlib

/-!
Verification of the NYC-SCRAPER acquisition engine against its specification.

This file gives a shallow embedding of the pure decision logic of the
repository:

* `scraper.py`   — the CAPTCHA poll loop of `CaptchaClientV2.solve_recaptcha`,
  the form-filling strategy chain `_fill_license_plate_form`, the result-wait
  step `_wait_for_results`, the HTML violation extraction pipeline
  `_parse_violations_v2` (with `_extract_violations_from_tables`,
  `_extract_violations_from_text`, `_map_violation_fields`,
  `_parse_violation_text`), and the orchestration of `scrape_violations`;
* `captcha_client.py` — the text-protocol poll loop `_get_captcha_result`;
* `nyc_api_client.py` — `_safe_float`, `_determine_status`,
  `_format_violations`;
* `targeted_scraper.py` — `_find_matching_row`, `_scrape_violations_only`,
  and the orchestration of `get_enhanced_violation_data`.

Modelling conventions: Python floats are modelled as rationals (the special
values inf and nan, and underscore digit separators, are not modelled);
Python values that can appear in a JSON record are the inductive `PyVal`;
Python dicts are insertion-ordered association lists with unique keys;
browser and network side effects are modelled as explicit environment
parameters recording the outcome of each external call; parsed HTML pages
are modelled at the level BeautifulSoup presents them to the code (visible
text, tables of rows of cell texts, block-level element texts).  Character
classes of the regular expressions are modelled over their ASCII ranges.
-/

/-- Python whitespace for `\s`, `str.strip` and `str.lower` style tests
(space, tab, newline, carriage return, vertical tab, form feed). -/
def is_py_space (c : Char) : Bool :=
  c = ' ' || c = '\t' || c = '\n' || c = '\r' || c.toNat = 11 || c.toNat = 12

/-- Python `str.strip()` (ASCII whitespace). -/
def py_strip (s : String) : String :=
  String.mk (((s.data.dropWhile is_py_space).reverse.dropWhile is_py_space).reverse)

/-- Python `str.lower()` (ASCII letters). -/
def py_lower (s : String) : String := String.mk (s.data.map Char.toLower)

/-- Python `str.upper()` (ASCII letters). -/
def py_upper (s : String) : String := String.mk (s.data.map Char.toUpper)

/-- Containment of one character list in another, used for the Python
`needle in haystack` substring test. -/
def chars_contain (hay needle : List Char) : Bool :=
  match hay with
  | [] => needle.isEmpty
  | _ :: rest => needle.isPrefixOf hay || chars_contain rest needle

/-- Python `needle in hay` on strings. -/
def contains_str (hay needle : String) : Bool := chars_contain hay.data needle.data

/-- Python `s.replace(a, b)` for single-character `a` and `b`, as used by
`_find_matching_row` on date separators. -/
def py_replace_char (s : String) (a b : Char) : String :=
  String.mk (s.data.map (fun c => if c = a then b else c))

/-- Python `sep.join(parts)`. -/
def py_join (sep : String) (parts : List String) : String :=
  String.mk ((parts.map String.data).intersperse sep.data).flatten

/-- Python `s.split(sep)` for a single-character separator, as used on the
`OK|token` responses of the solving service. -/
def py_split_char (s : String) (sep : Char) : List String :=
  (s.data.splitOn sep).map String.mk

/-- Python `\w` over ASCII: letters, digits and underscore. -/
def is_word_char (c : Char) : Bool := c.isAlpha || c.isDigit || c = '_'

/-- Tokens of the simple regular expressions used by the "no violations"
patterns of `_parse_violations_v2`: a literal, `\s+`, and an optional
single character (`s?`).  In every pattern of the source each `\s+` is
followed by a literal starting with a non-space character, so greedy
whitespace consumption is equivalent to the backtracking semantics of
`re.search`. -/
inductive RTok where
  | lit : String → RTok
  | ws : RTok
  | opt : Char → RTok

/-- Matcher for a token list at the head of a character list. -/
def match_toks : List RTok → List Char → Bool
  | [], _ => true
  | .lit s :: ts, cs => s.data.isPrefixOf cs && match_toks ts (cs.drop s.data.length)
  | .opt c :: ts, cs =>
    match cs with
    | c2 :: rest => if c2 = c then (match_toks ts rest || match_toks ts cs) else match_toks ts cs
    | [] => match_toks ts []
  | .ws :: ts, cs =>
    match cs with
    | [] => false
    | c :: rest => is_py_space c && match_toks ts (rest.dropWhile is_py_space)

/-- Python `re.search`: the pattern matches at some position of the text. -/
def search_toks (ts : List RTok) : List Char → Bool
  | [] => match_toks ts []
  | c :: rest => match_toks ts (c :: rest) || search_toks ts rest

/-- The ordered `no_violation_patterns` list of `_parse_violations_v2`. -/
def no_violation_patterns : List (List RTok) :=
  [ [.lit "no", .ws, .lit "violation", .opt 's', .ws, .lit "found"],
    [.lit "no", .ws, .lit "ticket", .opt 's', .ws, .lit "found"],
    [.lit "no", .ws, .lit "record", .opt 's', .ws, .lit "found"],
    [.lit "no", .ws, .lit "outstanding", .ws, .lit "violation", .opt 's'],
    [.lit "no", .ws, .lit "parking", .ws, .lit "violation", .opt 's'],
    [.lit "no", .ws, .lit "camera", .ws, .lit "violation", .opt 's'],
    [.lit "there", .ws, .lit "are", .ws, .lit "no", .ws, .lit "violation", .opt 's'],
    [.lit "0", .ws, .lit "violation", .opt 's', .ws, .lit "found"] ]

/-- The `for pattern in no_violation_patterns: if re.search(pattern, text_lower)`
check of `_parse_violations_v2`. -/
def no_violation_match (text_lower : String) : Bool :=
  no_violation_patterns.any (fun p => search_toks p text_lower.data)

/-- Values a Python/JSON record field can hold in this code base. -/
inductive PyVal where
  | none
  | bool (b : Bool)
  | num (q : ℚ)
  | str (s : String)
  | list (l : List PyVal)
  | dict (entries : List (String × PyVal))

/-- A Python dict with string keys, insertion ordered. -/
abbrev PyDict := List (String × PyVal)

/-- Python truthiness, as tested by `if value` in `_safe_float`. -/
def py_truthy : PyVal → Bool
  | .none => false
  | .bool b => b
  | .num q => decide (q ≠ 0)
  | .str s => decide (s ≠ "")
  | .list l => !l.isEmpty
  | .dict d => !d.isEmpty

/-- Python `d.get(key, default)`. -/
def py_get (d : PyDict) (k : String) (dflt : PyVal) : PyVal :=
  match List.lookup k d with
  | some v => v
  | Option.none => dflt

/-- Python `d[key] = value` on an insertion-ordered dict. -/
def dict_set (d : PyDict) (k : String) (v : PyVal) : PyDict :=
  if d.any (fun p => p.1 = k) then d.map (fun p => if p.1 = k then (k, v) else p)
  else d ++ [(k, v)]

/-- Python `d.update(e)`. -/
def dict_update (d e : PyDict) : PyDict := e.foldl (fun acc kv => dict_set acc kv.1 kv.2) d

/-- Numeric value of a digit list, most significant first. -/
def digits_val (ds : List Char) : ℕ := ds.foldl (fun a c => a * 10 + (c.toNat - 48)) 0

/-- Python `float(s)` on a string: optional surrounding whitespace, optional
sign, decimal digits with optional fraction, optional exponent.  Returns
`none` where Python raises `ValueError`.  (The special literals `inf` and
`nan` and underscore digit separators are outside the model.) -/
def py_parse_float (s : String) : Option ℚ :=
  let cs0 := s.data.dropWhile is_py_space
  let cs1 := (cs0.reverse.dropWhile is_py_space).reverse
  let sgn : Bool × List Char :=
    match cs1 with
    | '+' :: r => (false, r)
    | '-' :: r => (true, r)
    | _ => (false, cs1)
  let neg := sgn.1
  let cs2 := sgn.2
  let ip := cs2.takeWhile Char.isDigit
  let r1 := cs2.drop ip.length
  let mant : Option (ℚ × List Char) :=
    match r1 with
    | '.' :: r2 =>
      let fp := r2.takeWhile Char.isDigit
      if ip.isEmpty && fp.isEmpty then Option.none
      else some ((digits_val ip : ℚ) + (digits_val fp : ℚ) / (10 ^ fp.length : ℚ), r2.drop fp.length)
    | _ => if ip.isEmpty then Option.none else some ((digits_val ip : ℚ), r1)
  match mant with
  | Option.none => Option.none
  | some (m, r3) =>
    match r3 with
    | [] => some (if neg then -m else m)
    | e :: r4 =>
      if e = 'e' || e = 'E' then
        let esgn : Bool × List Char :=
          match r4 with
          | '+' :: r => (false, r)
          | '-' :: r => (true, r)
          | _ => (false, r4)
        let ed := esgn.2.takeWhile Char.isDigit
        if ed.isEmpty || !(esgn.2.drop ed.length).isEmpty then Option.none
        else
          let mag := (10 : ℚ) ^ digits_val ed
          let v := if esgn.1 then m / mag else m * mag
          some (if neg then -v else v)
      else Option.none

/-- Python `float(value)` on an arbitrary value: numbers convert, bools are
0 or 1, strings are parsed, everything else raises (`none`). -/
def py_float : PyVal → Option ℚ
  | .num q => some q
  | .bool b => some (if b then 1 else 0)
  | .str s => py_parse_float s
  | _ => Option.none

/-- The helper `_safe_float` of `nyc_api_client.py`:
`float(value) if value else 0.0` with `ValueError`/`TypeError` mapped to
`0.0`. -/
def safe_float (v : PyVal) : ℚ :=
  if py_truthy v then (py_float v).getD 0 else 0

/-- Case-insensitive consumption of a lowercase literal at the head of a
character list (`re.IGNORECASE`). -/
def ci_eat : List Char → List Char → Option (List Char)
  | [], cs => some cs
  | _ :: _, [] => Option.none
  | l :: ls, c :: cs => if c.toLower = l then ci_eat ls cs else Option.none

/-- Tail of the `violation_number` pattern after the optional leading
literal: `\s*#?(\w+)`.  The group is the matched word. -/
def vn_tail (cs : List Char) : Option String :=
  let cs1 := cs.dropWhile is_py_space
  let cs2 := match cs1 with
    | '#' :: r => r
    | _ => cs1
  match cs2.takeWhile is_word_char with
  | [] => Option.none
  | w => some (String.mk w)

/-- The pattern `(?:ticket|violation)?\s*#?(\w+)` with `re.IGNORECASE`,
matched at one position: the alternation backtracks through the branch
order ticket, violation, empty. -/
def vn_at (cs : List Char) : Option String :=
  (match ci_eat "ticket".data cs with
   | some r => vn_tail r
   | Option.none => Option.none).orElse
  (fun _ =>
    (match ci_eat "violation".data cs with
     | some r => vn_tail r
     | Option.none => Option.none).orElse
    (fun _ => vn_tail cs))

/-- The pattern `\$(\d+\.?\d*)` matched at one position: the group is the
digits, with an optional dot and following digits. -/
def fa_at (cs : List Char) : Option String :=
  match cs with
  | '$' :: rest =>
    let ds := rest.takeWhile Char.isDigit
    if ds.isEmpty then Option.none
    else
      match rest.drop ds.length with
      | '.' :: r3 => some (String.mk (ds ++ '.' :: r3.takeWhile Char.isDigit))
      | _ => some (String.mk ds)
  | _ => Option.none

/-- Exactly `n` digits at the head, with the remainder. -/
def take_digits (n : ℕ) (cs : List Char) : Option (List Char × List Char) :=
  let pre := cs.take n
  if pre.length = n && pre.all Char.isDigit then some (pre, cs.drop n) else Option.none

/-- Date separator class: slash or dash. -/
def is_sep (c : Char) : Bool := c = '/' || c = '-'

/-- The date pattern of `_parse_violation_text` (one or two digits, a slash
or dash separator, one or two digits, a separator, two to four digits,
capturing the whole match) applied at one position,
with greedy counted repetition and backtracking. -/
def date_at (cs : List Char) : Option String :=
  [2, 1].findSome? (fun n1 =>
    match take_digits n1 cs with
    | Option.none => Option.none
    | some (d1, r1) =>
      match r1 with
      | [] => Option.none
      | s1 :: r2 =>
        if is_sep s1 then
          [2, 1].findSome? (fun n2 =>
            match take_digits n2 r2 with
            | Option.none => Option.none
            | some (d2, r3) =>
              match r3 with
              | [] => Option.none
              | s2 :: r4 =>
                if is_sep s2 then
                  [4, 3, 2].findSome? (fun n3 =>
                    match take_digits n3 r4 with
                    | Option.none => Option.none
                    | some (d3, _) => some (String.mk (d1 ++ s1 :: (d2 ++ s2 :: d3))))
                else Option.none)
        else Option.none)

/-- Python `re.search` driver: first position, scanning left to right,
where the positional matcher succeeds. -/
def search_at_positions (f : List Char → Option String) : List Char → Option String
  | [] => f []
  | c :: rest => (f (c :: rest)).orElse (fun _ => search_at_positions f rest)

/-- An HTML table row: the `get_text()` of each `td`/`th` cell. -/
structure Row where
  cells : List String
deriving DecidableEq, Inhabited

/-- An HTML table: its `tr` rows. -/
structure HtmlTable where
  rows : List Row

/-- A parsed results page, at the level BeautifulSoup presents it:
`soup.get_text()`, the `table` elements, and the `get_text()` of each
block-level `div`/`span`/`p`/`li` element. -/
structure Doc where
  textContent : String
  tables : List HtmlTable
  elements : List String

/-- The `violation_keywords` list of `_extract_violations_from_tables`. -/
def violation_keywords : List String :=
  ["violation", "ticket", "fine", "amount", "due",
   "issued", "date", "code", "status", "penalty",
   "paid", "outstanding", "parking", "camera"]

/-- The `violation_indicators` list of `_extract_violations_from_text`. -/
def violation_indicators : List String :=
  ["violation", "ticket", "fine", "amount due", "issued"]

/-- Positional `field_mapping` of `_map_violation_fields`. -/
def positional_field_name (i : ℕ) : String :=
  match i with
  | 0 => "violation_number"
  | 1 => "issue_date"
  | 2 => "violation_type"
  | 3 => "fine_amount"
  | 4 => "payment_status"
  | _ => "field_" ++ toString (i + 1)

/-- The helper `_map_violation_fields` of `scraper.py`: positional mapping
first, then header-substring overrides when the header count matches the
cell count. -/
def map_violation_fields (cell_texts headers : List String) : PyDict :=
  let positional := cell_texts.enum.foldl
    (fun d p => dict_set d (positional_field_name p.1) (PyVal.str p.2)) []
  if !headers.isEmpty && headers.length = cell_texts.length then
    (headers.zip cell_texts).foldl (fun d hc =>
      if contains_str hc.1 "number" || contains_str hc.1 "ticket" then
        dict_set d "violation_number" (PyVal.str hc.2)
      else if contains_str hc.1 "date" then
        dict_set d "issue_date" (PyVal.str hc.2)
      else if contains_str hc.1 "amount" || contains_str hc.1 "fine" then
        dict_set d "fine_amount" (PyVal.str hc.2)
      else if contains_str hc.1 "status" then
        dict_set d "payment_status" (PyVal.str hc.2)
      else if contains_str hc.1 "type" || contains_str hc.1 "code" then
        dict_set d "violation_type" (PyVal.str hc.2)
      else d) positional
  else positional

/-- The helper `_extract_violations_from_tables` of `scraper.py`. -/
def extract_violations_from_tables (tables : List HtmlTable) : List PyDict :=
  tables.enum.foldl (fun acc tp =>
    let rows := tp.2.rows
    if rows.length < 2 then acc
    else
      let headers := (rows.headI.cells).map (fun c => py_lower (py_strip c))
      (rows.drop 1).enum.foldl (fun acc2 rp =>
        let cells := rp.2.cells
        if 3 ≤ cells.length then
          let cell_texts := cells.map py_strip
          let row_text := py_lower (py_join " " cell_texts)
          if violation_keywords.any (fun k => contains_str row_text k) then
            let violation : PyDict :=
              [("source", PyVal.str "table"),
               ("table_index", PyVal.num ((tp.1 : ℚ) + 1)),
               ("row_index", PyVal.num ((rp.1 : ℚ) + 1)),
               ("raw_data", PyVal.list (cell_texts.map PyVal.str))]
            acc2 ++ [dict_update violation (map_violation_fields cell_texts headers)]
          else acc2
        else acc2) acc) []

/-- The helper `_parse_violation_text` of `scraper.py`: regular-expression
field extraction over one free-form text, kept only when at least one field
beyond `raw_text` was recognized. -/
def parse_violation_text (text : String) : Option PyDict :=
  let v0 : PyDict := [("raw_text", PyVal.str text)]
  let v1 := match search_at_positions vn_at text.data with
    | some g => dict_set v0 "violation_number" (PyVal.str g)
    | Option.none => v0
  let v2 := match search_at_positions fa_at text.data with
    | some g => dict_set v1 "fine_amount" (PyVal.str g)
    | Option.none => v1
  let v3 := match search_at_positions date_at text.data with
    | some g => dict_set v2 "issue_date" (PyVal.str g)
    | Option.none => v2
  if 1 < v3.length then some v3 else Option.none

/-- The helper `_extract_violations_from_text` of `scraper.py`. -/
def extract_violations_from_text (elements : List String) : List PyDict :=
  elements.foldl (fun acc el =>
    let text := py_strip el
    let text_lower := py_lower text
    if text.length < 10 then acc
    else if violation_indicators.any (fun k => contains_str text_lower k) then
      match parse_violation_text text with
      | some v => acc ++ [dict_set v "source" (PyVal.str "text")]
      | Option.none => acc
    else acc) []

/-- The extraction entry point `_parse_violations_v2` of `scraper.py`: the
"no violations" short circuit first, then table extraction, then the
free-text fallback when tables produced nothing. -/
def parse_violations_v2 (doc : Doc) (_license_plate : String) : List PyDict :=
  let text_lower := py_lower doc.textContent
  if no_violation_match text_lower then []
  else
    let violations := extract_violations_from_tables doc.tables
    if violations.isEmpty then extract_violations_from_text doc.elements
    else violations

/-- The helper `_determine_status` of `nyc_api_client.py`. -/
def determine_status (violation : PyDict) : String :=
  let amount_due := safe_float (py_get violation "amount_due" (PyVal.num 0))
  let payment_amount := safe_float (py_get violation "payment_amount" (PyVal.num 0))
  if amount_due ≤ 0 ∧ payment_amount > 0 then "PAID"
  else if amount_due > 0 then "OUTSTANDING"
  else "UNKNOWN"

/-- The per-record body of `_format_violations` of `nyc_api_client.py`. -/
def format_violation (violation : PyDict) : PyDict :=
  [("plate", py_get violation "plate" (PyVal.str "")),
   ("state", py_get violation "state" (PyVal.str "")),
   ("license_type", py_get violation "license_type" (PyVal.str "")),
   ("summons_number", py_get violation "summons_number" (PyVal.str "")),
   ("violation_code", py_get violation "violation" (PyVal.str "")),
   ("issue_date", py_get violation "issue_date" (PyVal.str "")),
   ("violation_time", py_get violation "violation_time" (PyVal.str "")),
   ("judgment_entry_date", py_get violation "judgment_entry_date" (PyVal.str "")),
   ("fine_amount", PyVal.num (safe_float (py_get violation "fine_amount" (PyVal.num 0)))),
   ("penalty_amount", PyVal.num (safe_float (py_get violation "penalty_amount" (PyVal.num 0)))),
   ("interest_amount", PyVal.num (safe_float (py_get violation "interest_amount" (PyVal.num 0)))),
   ("reduction_amount", PyVal.num (safe_float (py_get violation "reduction_amount" (PyVal.num 0)))),
   ("payment_amount", PyVal.num (safe_float (py_get violation "payment_amount" (PyVal.num 0)))),
   ("amount_due", PyVal.num (safe_float (py_get violation "amount_due" (PyVal.num 0)))),
   ("precinct", py_get violation "precinct" (PyVal.str "")),
   ("county", py_get violation "county" (PyVal.str "")),
   ("issuing_agency", py_get violation "issuing_agency" (PyVal.str "")),
   ("summons_image", py_get violation "summons_image" (PyVal.dict [])),
   ("status", PyVal.str (determine_status violation)),
   ("raw_data", PyVal.dict violation)]

/-- The helper `_format_violations` of `nyc_api_client.py`. -/
def format_violations (violations_data : List PyDict) : List PyDict :=
  violations_data.map format_violation

/-- The six money fields that `_format_violations` coerces with
`_safe_float`. -/
def money_fields : List String :=
  ["fine_amount", "penalty_amount", "interest_amount",
   "reduction_amount", "payment_amount", "amount_due"]

/-- A JSON-mode response of the solving service `res.php` endpoint, as read
by `CaptchaClientV2.solve_recaptcha` in `scraper.py`: `result.get('status')`,
`result['request']`, `result.get('error_text')`. -/
structure PollResp where
  status : Option Int
  request : String
  errorText : Option String
deriving DecidableEq

/-- Outcome of the poll loop of `CaptchaClientV2.solve_recaptcha`: the
returned token, the raised `2captcha error` with the service-reported
reason, or the raised timeout after the poll budget. -/
inductive SolveResult where
  | solved (token : String)
  | rejected (reason : Option String)
  | timeout
deriving DecidableEq

/-- The poll loop of `CaptchaClientV2.solve_recaptcha` in `scraper.py`:
`f` gives the JSON response to each poll (the first poll is `f i`), and the
fuel is the remaining iterations of `for attempt in range(60)`.  A response
with status 0 and `error_text` equal to `CAPCHA_NOT_READY` continues; a
response with status 0 and any other `error_text` raises with that reason;
a response with status 1 returns `result['request']`; any other response
falls through both branches and the loop continues. -/
def run_polls (f : ℕ → PollResp) : ℕ → ℕ → SolveResult
  | _, 0 => SolveResult.timeout
  | i, fuel + 1 =>
    let r := f i
    if r.status = some 0 then
      if r.errorText = some "CAPCHA_NOT_READY" then run_polls f (i + 1) fuel
      else SolveResult.rejected r.errorText
    else if r.status = some 1 then SolveResult.solved r.request
    else run_polls f (i + 1) fuel

/-- The fixed inter-poll sleep of `solve_recaptcha` (seconds). -/
def captcha_poll_interval : ℕ := 5

/-- The poll budget of `solve_recaptcha`: `for attempt in range(60)`. -/
def captcha_max_polls : ℕ := 60

/-- The deadline the source documents for the poll budget
(`# 5 minutes max`), in seconds. -/
def captcha_deadline_seconds : ℕ := 300

/-- The polling phase of `CaptchaClientV2.solve_recaptcha`. -/
def solve_recaptcha_poll (f : ℕ → PollResp) : SolveResult :=
  run_polls f 0 captcha_max_polls

/-- Classification of a single JSON poll response: `none` when the loop
continues, otherwise the terminal outcome.  Spelled out from the branch
structure of `solve_recaptcha`. -/
def poll_outcome (r : PollResp) : Option SolveResult :=
  if r.status = some 0 then
    if r.errorText = some "CAPCHA_NOT_READY" then Option.none
    else some (SolveResult.rejected r.errorText)
  else if r.status = some 1 then some (SolveResult.solved r.request)
  else Option.none

/-- First terminal outcome among the next `fuel` polls, if any. -/
def first_outcome (f : ℕ → PollResp) : ℕ → ℕ → Option SolveResult
  | _, 0 => Option.none
  | i, fuel + 1 => (poll_outcome (f i)).orElse (fun _ => first_outcome f (i + 1) fuel)

/-- The text-protocol poll loop `_get_captcha_result` of
`captcha_client.py`: `g` gives `response.text` of each poll, and the fuel
is the remaining iterations of `for attempt in range(max_attempts)` (the
default `max_attempts` is 30).  `CAPCHA_NOT_READY` continues, `OK|token`
returns the token, any other text returns `None` at once, and an exhausted
budget returns `None`. -/
def get_captcha_result (g : ℕ → String) : ℕ → ℕ → Option String
  | _, 0 => Option.none
  | i, fuel + 1 =>
    let result := py_strip (g i)
    if result = "CAPCHA_NOT_READY" then get_captcha_result g (i + 1) fuel
    else if "OK|".data.isPrefixOf result.data then some ((py_split_char result '|').getD 1 "")
    else Option.none

/-- A response with the status 0 not-ready marker, as the JSON wire
protocol of the solving service sends it. -/
def not_ready_resp : PollResp :=
  { status := some 0, request := "CAPCHA_NOT_READY", errorText := some "CAPCHA_NOT_READY" }

/-- A status 1 response carrying a solved token. -/
def ok_resp (token : String) : PollResp :=
  { status := some 1, request := token, errorText := Option.none }

/-- Python `d.get(key, '')` on a dict of strings, as `_find_matching_row`
reads `summons_number` and `issue_date`. -/
def sget (d : List (String × String)) (k : String) : String :=
  (List.lookup k d).getD ""

/-- The `date_formats` list `_find_matching_row` builds from the API issue
date: the original, dashes turned to slashes, slashes turned to dashes. -/
def date_formats (issue_date : String) : List String :=
  [issue_date, py_replace_char issue_date '-' '/', py_replace_char issue_date '/' '-']

/-- One iteration body of `_find_matching_row`: the summons containment
test, then the date-format containment tests, on the joined cell text of a
single candidate row. -/
def row_matches (summons_number issue_date : String) (row : Row) : Bool :=
  let row_text := py_join " " row.cells
  (summons_number != "" && contains_str row_text summons_number) ||
  (issue_date != "" && (date_formats issue_date).any (fun d => contains_str row_text d))

/-- The scan of `_find_matching_row` over the candidate rows, in order. -/
def find_matching_row_aux (summons_number issue_date : String) : List Row → Option Row
  | [] => Option.none
  | row :: rest =>
    let row_text := py_join " " row.cells
    if summons_number != "" && contains_str row_text summons_number then some row
    else if issue_date != "" &&
        (date_formats issue_date).any (fun d => contains_str row_text d) then some row
    else find_matching_row_aux summons_number issue_date rest

/-- The matcher `_find_matching_row` of `targeted_scraper.py`, on the
string fields the code reads from the API violation. -/
def find_matching_row (violation : List (String × String)) (rows : List Row) : Option Row :=
  find_matching_row_aux (sget violation "summons_number") (sget violation "issue_date") rows

/-- Result shape of the structured-source call `_get_api_data` (and of the
stub fallback `_scrape_violations_only`). -/
structure ApiResult where
  success : Bool
  violations : List PyDict
  error : Option String

/-- Result shape of the browser enhancement step
`_scrape_additional_details`. -/
structure EnhResult where
  enhancedViolations : List PyDict
  scrapedDetails : List PyDict
  downloadedPdfs : List PyDict

/-- The per-request result dict assembled by `get_enhanced_violation_data`. -/
structure AcqResult where
  licensePlate : String
  state : String
  violations : List PyDict
  success : Bool
  error : Option String
  dataSources : List String
  downloadedPdfs : List PyDict
  scrapedDetails : List PyDict

/-- The stub fallback `_scrape_violations_only` of `targeted_scraper.py`,
exactly as written: it performs no browser work and always returns this
fixed failure dict. -/
def scrape_violations_only : ApiResult :=
  { success := false,
    violations := [],
    error := some "Pure web scraping fallback not implemented. API connection required." }

/-- The orchestrator `get_enhanced_violation_data` of `targeted_scraper.py`.
The structured-source outcome `api` and the enhancement step `enh` stand
for the two external calls; `Except.error` on `enh` is an exception raised
by `_scrape_additional_details` (for example a browser launch failure),
which the top-level `except` turns into `result['error']`.  On a failed
structured call the code runs the stub fallback, merges its dict with
`result.update`, and appends the `WEB_ONLY` source tag. -/
def get_enhanced_violation_data (license_plate state : String) (api : ApiResult)
    (enh : List PyDict → Except String EnhResult) : AcqResult :=
  let base : AcqResult :=
    { licensePlate := py_upper license_plate, state := py_upper state,
      violations := [], success := false, error := Option.none,
      dataSources := [], downloadedPdfs := [], scrapedDetails := [] }
  if api.success then
    let r1 := { base with violations := api.violations,
                          dataSources := base.dataSources ++ ["NYC_API"] }
    if !r1.violations.isEmpty then
      match enh r1.violations with
      | Except.ok e =>
        { r1 with violations := e.enhancedViolations,
                  scrapedDetails := e.scrapedDetails,
                  downloadedPdfs := e.downloadedPdfs,
                  dataSources := r1.dataSources ++ ["WEB_SCRAPING"],
                  success := true }
      | Except.error msg => { r1 with error := some msg, success := false }
    else { r1 with success := true }
  else
    let wr := scrape_violations_only
    { base with success := wr.success, error := wr.error, violations := wr.violations,
                dataSources := base.dataSources ++ ["WEB_ONLY"] }

/-- Outcomes of the browser calls `_fill_license_plate_form` makes, one
request each: whether `page.fill` on `input[name=plateNumber]` succeeds,
whether `select_option` on the state dropdown succeeds (its failure is
swallowed), the result of `query_selector_all` on text inputs (count, or a
raised exception), whether filling the second text input succeeds, the
result of the placeholder `query_selector` (found or not, or a raised
exception), and whether filling the placeholder-matched input succeeds. -/
structure FillEnv where
  fillPlateByNameOk : Bool
  selectStateOk : Bool
  queryTextInputs : Except Unit ℕ
  fillSecondInputOk : Bool
  queryPlaceholder : Except Unit Bool
  fillPlaceholderOk : Bool

/-- Success of strategy 2 of `_fill_license_plate_form`: the text-input
query did not raise, found at least two inputs, and the positional fill
succeeded.  A count below two falls through without an exception. -/
def strategy2_fills (env : FillEnv) : Bool :=
  match env.queryTextInputs with
  | Except.ok n => decide (2 ≤ n) && env.fillSecondInputOk
  | Except.error _ => false

/-- Success of strategy 3 of `_fill_license_plate_form`: the placeholder
query did not raise, found an input, and the fill succeeded. -/
def strategy3_fills (env : FillEnv) : Bool :=
  match env.queryPlaceholder with
  | Except.ok true => env.fillPlaceholderOk
  | _ => false

/-- The strategy chain `_fill_license_plate_form` of `scraper.py`: the
returned flag, paired with the list of strategies attempted, in order.
Strategy 1 returns true regardless of the swallowed state-selection
outcome. -/
def fill_license_plate_form (env : FillEnv) : Bool × List ℕ :=
  if env.fillPlateByNameOk then (true, [1])
  else if strategy2_fills env then (true, [1, 2])
  else if strategy3_fills env then (true, [1, 2, 3])
  else (false, [1, 2, 3])

/-- Values stored in the `debug_info` dict of `scrape_violations`. -/
inductive DebugVal where
  | str (s : String)
  | bool (b : Bool)
  | none
deriving DecidableEq

/-- Outcomes of the external calls `scrape_violations` makes, in order:
the page title and URL after navigation, the form-fill environment, the
outcome of `_handle_captcha` (`none` when no challenge is present, `true`
when one was solved, `Except.error` when it raised), the flag
`_submit_search_form` returns, whether the result wait of
`_wait_for_results` hit its timeout (the exception is swallowed either
way), the URL after the wait, the parsed content of the results page, and
the outcome of `await browser.close()` — a call that sits inside the same
try block, after the parsed violations and the success flag have been
stored. -/
structure ScrapeEnv where
  pageTitle : String
  initialUrl : String
  fill : FillEnv
  captchaOutcome : Except String (Option Bool)
  submitOk : Bool
  waitTimedOut : Bool
  resultsUrl : String
  content : Doc
  browserClose : Except String Unit

/-- The result dict assembled by `scrape_violations` of `scraper.py`
(wall-clock `processing_time` is outside the model). -/
structure ScrapeResult where
  licensePlate : String
  state : String
  violations : List PyDict
  totalViolations : ℕ
  success : Bool
  error : Option String
  debugInfo : List (String × DebugVal)

/-- Debug entries contributed by `_wait_for_results`: the function only
logs, both on completion and on a swallowed timeout, and records nothing
in the result. -/
def wait_for_results_debug (_timed_out : Bool) : List (String × DebugVal) := []

/-- The debug entry `scrape_violations` stores for `captcha_solved`. -/
def captcha_solved_debug (o : Option Bool) : DebugVal :=
  match o with
  | some b => DebugVal.bool b
  | Option.none => DebugVal.none

/-- The orchestration of `scrape_violations` in `scraper.py`: fill the
form (raising `Could not fill license plate form` on failure), handle the
challenge, submit (raising `Could not submit search form` on failure),
wait for results, parse, store the violations and mark success, then close
the browser — still inside the try, so a failing `browser.close()` lands
in `result['error']` while the already stored non-empty violations are
kept; every raised exception lands in `result['error']` with the fields
assembled so far kept. -/
def scrape_violations (license_plate state : String) (env : ScrapeEnv) : ScrapeResult :=
  let r0 : ScrapeResult :=
    { licensePlate := py_upper license_plate, state := py_upper state,
      violations := [], totalViolations := 0, success := false,
      error := Option.none, debugInfo := [] }
  let r1 := { r0 with debugInfo := r0.debugInfo ++
      [("page_title", DebugVal.str env.pageTitle), ("initial_url", DebugVal.str env.initialUrl)] }
  if (fill_license_plate_form env.fill).1 = false then
    { r1 with error := some "Could not fill license plate form", success := false }
  else
    let r2 := { r1 with debugInfo := r1.debugInfo ++ [("form_filled", DebugVal.bool true)] }
    match env.captchaOutcome with
    | Except.error msg => { r2 with error := some msg, success := false }
    | Except.ok csolved =>
      let r3 := { r2 with debugInfo := r2.debugInfo ++
          [("captcha_present", DebugVal.bool (csolved ≠ Option.none)),
           ("captcha_solved", captcha_solved_debug csolved)] }
      if env.submitOk = false then
        { r3 with error := some "Could not submit search form", success := false }
      else
        let r4 := { r3 with debugInfo := r3.debugInfo ++ [("form_submitted", DebugVal.bool true)] }
        let r5 := { r4 with debugInfo := r4.debugInfo ++ wait_for_results_debug env.waitTimedOut ++
            [("results_url", DebugVal.str env.resultsUrl)] }
        let violations := parse_violations_v2 env.content license_plate
        let r6 := { r5 with violations := violations, totalViolations := violations.length,
                            success := true }
        match env.browserClose with
        | Except.ok _ => r6
        | Except.error msg => { r6 with error := some msg, success := false }

/-- A results page whose visible text carries a "no violations" message
while incidental table markup with a keyword-bearing data row is present:
the tables tier alone would produce a candidate. -/
def doc_no_violations_with_table : Doc :=
  { textContent := "Results: No violations found for this plate",
    tables := [⟨[⟨["Summons", "Date", "Amount"]⟩,
                 ⟨["1234567890", "06/15/2023", "$115 violation"]⟩]⟩],
    elements := ["Parking violation at Main St, fine $40 due 01/02/23"] }

/-- A poll stream that answers not-ready on the first 59 polls and a
solved token on the 60th. -/
def polls_59_then_ok : ℕ → PollResp :=
  fun n => if n < 59 then not_ready_resp else ok_resp "tok123"

/-- A poll stream whose first response has a status that is neither 0 nor
1, followed by a solved response. -/
def polls_junk_then_ok : ℕ → PollResp :=
  fun n => if n = 0 then { status := some 2, request := "junk", errorText := Option.none }
           else ok_resp "TOKEN2"

/-- A text-protocol poll stream that always answers a service error. -/
def text_polls_error : ℕ → String := fun _ => "ERROR_WRONG_USER_KEY"

/-- A failed structured-source outcome. -/
def api_down : ApiResult :=
  { success := false, violations := [], error := some "API returned status 503: unavailable" }

/-- An enhancement step that would succeed (unreachable on the failed-API
path). -/
def enh_unused : List PyDict → Except String EnhResult :=
  fun _ => Except.ok { enhancedViolations := [], scrapedDetails := [], downloadedPdfs := [] }

/-- A successful structured-source outcome with one violation record. -/
def api_ok_one : ApiResult :=
  { success := true,
    violations := [[("summons_number", PyVal.str "1407358106")]],
    error := Option.none }

/-- An enhancement step that raises, as a browser launch failure does. -/
def enh_crash : List PyDict → Except String EnhResult :=
  fun _ => Except.error "browser launch failed"

/-- An enhancement step that returns its input untouched. -/
def enh_id : List PyDict → Except String EnhResult :=
  fun vs => Except.ok { enhancedViolations := vs, scrapedDetails := [], downloadedPdfs := [] }

/-- A form-fill environment in which every strategy fails. -/
def fill_env_all_fail : FillEnv :=
  { fillPlateByNameOk := false, selectStateOk := false,
    queryTextInputs := Except.ok 1, fillSecondInputOk := false,
    queryPlaceholder := Except.ok false, fillPlaceholderOk := false }

/-- A scrape environment whose form fill fails at every strategy. -/
def scrape_env_fill_fail : ScrapeEnv :=
  { pageTitle := "NYCServ", initialUrl := "https://nycserv.nyc.gov/NYCServWeb/PVO_Search.jsp",
    fill := fill_env_all_fail, captchaOutcome := Except.ok Option.none,
    submitOk := true, waitTimedOut := false,
    resultsUrl := "https://nycserv.nyc.gov/NYCServWeb/PVO_Search.jsp",
    content := { textContent := "", tables := [], elements := [] },
    browserClose := Except.ok () }

/-- A scrape environment in which every step succeeds but the result wait
hits its timeout; the page then renders one violation row. -/
def scrape_env_wait_timeout : ScrapeEnv :=
  { pageTitle := "NYCServ", initialUrl := "https://nycserv.nyc.gov/NYCServWeb/PVO_Search.jsp",
    fill := { fillPlateByNameOk := true, selectStateOk := true,
              queryTextInputs := Except.ok 2, fillSecondInputOk := true,
              queryPlaceholder := Except.ok true, fillPlaceholderOk := true },
    captchaOutcome := Except.ok Option.none,
    submitOk := true, waitTimedOut := true,
    resultsUrl := "https://nycserv.nyc.gov/NYCServWeb/SearchResults",
    content := { textContent := "Search results below",
                 tables := [⟨[⟨["Summons", "Date", "Amount"]⟩,
                              ⟨["1234567890", "06/15/2023", "$115 violation"]⟩]⟩],
                 elements := [] },
    browserClose := Except.ok () }

/-- An API violation whose summons number and issue date both occur on the
results page, but on different rows. -/
def cex_violation : List (String × String) :=
  [("summons_number", "1407358106"), ("issue_date", "06/15/2023")]

/-- Candidate rows: the first matches the violation only by date, the
second contains the summons number. -/
def cex_rows : List Row :=
  [⟨["06/15/2023", "NO STANDING", "$115.00"]⟩,
   ⟨["1407358106", "SPEEDING", "$50.00"]⟩]

/-- C1: for every parsed page whose lowered visible text matches one of the
ordered "no violations" patterns, `_parse_violations_v2` returns the empty
sequence, whatever table rows or text elements the page also contains —
the short circuit fires before the structural tiers run. -/
theorem no_violation_short_circuit (doc : Doc) (plate : String)
    (h : no_violation_match (py_lower doc.textContent) = true) :
    parse_violations_v2 doc plate = [] := by
  simp [parse_violations_v2, h]

/-- Witness for C1: a page with the message `No violations found` together
with a table row and a text element that both tiers would otherwise turn
into candidates, on which extraction returns the empty sequence. -/
theorem no_violation_short_circuit_witness :
    no_violation_match (py_lower doc_no_violations_with_table.textContent) = true ∧
    parse_violations_v2 doc_no_violations_with_table "AW132U" = [] ∧
    (extract_violations_from_tables doc_no_violations_with_table.tables).isEmpty = false ∧
    (extract_violations_from_text doc_no_violations_with_table.elements).isEmpty = false :=
  ⟨by decide, no_violation_short_circuit doc_no_violations_with_table "AW132U" (by decide),
   by decide, by decide⟩

/-- C2: `_determine_status` is a deterministic function of the two coerced
amounts — `PAID` exactly when `amount_due ≤ 0` and `payment_amount > 0`,
`OUTSTANDING` exactly when `amount_due > 0`, `UNKNOWN` otherwise, and no
other value ever — and on the two concrete records of the claim it yields
`PAID` and `OUTSTANDING`. -/
theorem status_amount_rule :
    (∀ violation : PyDict,
      (determine_status violation = "PAID" ↔
        safe_float (py_get violation "amount_due" (PyVal.num 0)) ≤ 0 ∧
        0 < safe_float (py_get violation "payment_amount" (PyVal.num 0))) ∧
      (determine_status violation = "OUTSTANDING" ↔
        0 < safe_float (py_get violation "amount_due" (PyVal.num 0))) ∧
      (determine_status violation = "UNKNOWN" ↔
        ¬(safe_float (py_get violation "amount_due" (PyVal.num 0)) ≤ 0 ∧
          0 < safe_float (py_get violation "payment_amount" (PyVal.num 0))) ∧
        ¬0 < safe_float (py_get violation "amount_due" (PyVal.num 0))) ∧
      (determine_status violation = "PAID" ∨ determine_status violation = "OUTSTANDING" ∨
        determine_status violation = "UNKNOWN")) ∧
    determine_status [("amount_due", PyVal.num 0), ("payment_amount", PyVal.num 25)] = "PAID" ∧
    determine_status [("amount_due", PyVal.num 40)] = "OUTSTANDING" := by
  refine ⟨fun violation => ?_, by decide, by decide⟩
  have hds : determine_status violation =
      (if safe_float (py_get violation "amount_due" (PyVal.num 0)) ≤ 0 ∧
          0 < safe_float (py_get violation "payment_amount" (PyVal.num 0)) then "PAID"
       else if 0 < safe_float (py_get violation "amount_due" (PyVal.num 0)) then "OUTSTANDING"
       else "UNKNOWN") := rfl
  rw [hds]
  split_ifs with h1 h2
  · refine ⟨⟨fun _ => h1, fun _ => rfl⟩, ?_, ?_, Or.inl rfl⟩
    · exact ⟨fun hc => absurd hc (by decide), fun h2 => absurd h2 (by linarith [h1.1])⟩
    · exact ⟨fun hc => absurd hc (by decide), fun hc => absurd h1 hc.1⟩
  · refine ⟨⟨fun hc => absurd hc (by decide), fun hc => absurd hc.2 (by linarith)⟩,
      ⟨fun _ => h2, fun _ => rfl⟩, ?_, Or.inr (Or.inl rfl)⟩
    · exact ⟨fun hc => absurd hc (by decide), fun hc => absurd h2 hc.2⟩
  · refine ⟨⟨fun hc => absurd hc (by decide), fun hc => absurd hc h1⟩,
      ⟨fun hc => absurd hc (by decide), fun hc => absurd hc h2⟩,
      ⟨fun _ => ⟨h1, h2⟩, fun _ => rfl⟩, Or.inr (Or.inr rfl)⟩

/-- C3: evaluation of the orchestrator on a failed structured call.  The
fallback `_scrape_violations_only` is an unimplemented stub, so the final
result always carries zero violations, `success = false`, the fixed stub
error (not the structured-source error), and the `WEB_ONLY` source tag —
the claimed browser fallback that could return violations with no
top-level error is unreachable. -/
theorem fallback_stub_eval :
    (get_enhanced_violation_data "AW716M" "NJ" api_down enh_unused).violations = [] ∧
    (get_enhanced_violation_data "AW716M" "NJ" api_down enh_unused).success = false ∧
    (get_enhanced_violation_data "AW716M" "NJ" api_down enh_unused).error =
      some "Pure web scraping fallback not implemented. API connection required." ∧
    api_down.error = some "API returned status 503: unavailable" ∧
    (get_enhanced_violation_data "AW716M" "NJ" api_down enh_unused).dataSources = ["WEB_ONLY"] ∧
    scrape_violations_only.violations = [] ∧ scrape_violations_only.success = false :=
  ⟨rfl, rfl, rfl, rfl, rfl, rfl, rfl⟩

/-- Counterexample to C4: both an identity-key match (second row) and a
date match (first row) are possible, yet `_find_matching_row` returns the
first row, which does not contain the summons number — the row scan order
beats the identity-key priority. -/
theorem identity_key_priority_counterexample :
    find_matching_row cex_violation cex_rows = some ⟨["06/15/2023", "NO STANDING", "$115.00"]⟩ ∧
    contains_str (py_join " " ["06/15/2023", "NO STANDING", "$115.00"]) "1407358106" = false ∧
    row_matches (sget cex_violation "summons_number") (sget cex_violation "issue_date")
      ⟨["1407358106", "SPEEDING", "$50.00"]⟩ = true ∧
    contains_str (py_join " " ["1407358106", "SPEEDING", "$50.00"]) "1407358106" = true :=
  ⟨by decide, by decide, by decide, by decide⟩

/-- Helper: the scan of `_find_matching_row` is the first row satisfying
the per-row disjunction of the summons test and the date-format tests. -/
theorem find_matching_row_aux_eq_find (sn idate : String) (rows : List Row) :
    find_matching_row_aux sn idate rows = rows.find? (row_matches sn idate) := by
  induction rows with
  | nil => rfl
  | cons row rest ih =>
    by_cases h1 : (sn != "" && contains_str (py_join " " row.cells) sn) = true
    · simp [find_matching_row_aux, List.find?, row_matches, h1]
    · by_cases h2 : (idate != "" &&
          (date_formats idate).any (fun d => contains_str (py_join " " row.cells) d)) = true
      · simp [find_matching_row_aux, List.find?, row_matches, h1, h2]
      · simp [find_matching_row_aux, List.find?, row_matches, h1, h2, ih]

/-- C4 (amended): `_find_matching_row` returns the first candidate row, in
page order, whose joined cell text contains the summons number or one of
the three date formats — the summons check precedes the date check only
within one row, so an earlier row matching by date wins over a later row
matching by summons; at most one row is returned, the first found. -/
theorem find_matching_row_first_match (violation : List (String × String)) (rows : List Row) :
    find_matching_row violation rows =
      rows.find? (row_matches (sget violation "summons_number") (sget violation "issue_date")) :=
  find_matching_row_aux_eq_find _ _ rows

/-- Helper: a block of not-ready responses is skipped by the poll loop,
consuming one unit of fuel per response. -/
theorem run_polls_skip (f : ℕ → PollResp) :
    ∀ (d i fuel : ℕ), (∀ m, m < d → f (i + m) = not_ready_resp) →
      run_polls f i (d + fuel) = run_polls f (i + d) fuel := by
  intro d
  induction d with
  | zero => intro i fuel _; simp
  | succ d ih =>
    intro i fuel h
    have h0 : f i = not_ready_resp := by simpa using h 0 (Nat.succ_pos d)
    have hfuel : d + 1 + fuel = (d + fuel) + 1 := by omega
    rw [hfuel]
    have hstep : run_polls f i ((d + fuel) + 1) = run_polls f (i + 1) (d + fuel) := by
      simp [run_polls, h0, not_ready_resp]
    rw [hstep, ih (i + 1) fuel (fun m hm => by
      have hm1 := h (m + 1) (by omega)
      have : i + 1 + m = i + (m + 1) := by omega
      rw [this]; exact hm1)]
    have : i + 1 + d = i + (d + 1) := by omega
    rw [this]

/-- C5: if the service answers not-ready on each of the first 59 polls and
a solved token on the 60th, `solve_recaptcha` returns that token; the
60-poll budget at the fixed 5-second interval exactly fills the 5-minute
deadline the source documents. -/
theorem captcha_sixtieth_poll_success (f : ℕ → PollResp) (token : String)
    (h1 : ∀ m, m < 59 → f m = not_ready_resp)
    (h2 : f 59 = ok_resp token) :
    solve_recaptcha_poll f = SolveResult.solved token ∧
    captcha_poll_interval * captcha_max_polls ≤ captcha_deadline_seconds := by
  constructor
  · have h59 : run_polls f 0 (59 + 1) = run_polls f (0 + 59) 1 :=
      run_polls_skip f 59 0 1 (fun m hm => by simpa using h1 m hm)
    show run_polls f 0 (59 + 1) = _
    rw [h59]
    simp [run_polls, h2, ok_resp]
  · decide

/-- Witness for C5: the concrete 59-not-ready-then-token stream. -/
theorem captcha_sixtieth_poll_success_witness :
    solve_recaptcha_poll polls_59_then_ok = SolveResult.solved "tok123" ∧
    captcha_poll_interval * captcha_max_polls ≤ captcha_deadline_seconds :=
  captcha_sixtieth_poll_success polls_59_then_ok "tok123"
    (fun m hm => by simp [polls_59_then_ok, hm]) (by rfl)

/-- Counterexample to C6: a first poll response whose status is neither 0
nor 1 does not terminate solving — the loop silently continues and the
next poll still succeeds with a token, where the claim requires immediate
failure with the service-reported reason. -/
theorem poll_other_status_counterexample :
    (polls_junk_then_ok 0).status = some 2 ∧
    solve_recaptcha_poll polls_junk_then_ok = SolveResult.solved "TOKEN2" :=
  ⟨rfl, by decide⟩

/-- Helper: the JSON poll loop returns the first terminal outcome among
its fueled polls, and times out when there is none. -/
theorem run_polls_eq_first_outcome (f : ℕ → PollResp) :
    ∀ (fuel i : ℕ),
      run_polls f i fuel = (first_outcome f i fuel).getD SolveResult.timeout := by
  intro fuel
  induction fuel with
  | zero => intro i; rfl
  | succ fuel ih =>
    intro i
    by_cases h0 : (f i).status = some 0
    · by_cases hnr : (f i).errorText = some "CAPCHA_NOT_READY"
      · simp [run_polls, first_outcome, poll_outcome, h0, hnr, ih, Option.orElse]
      · simp [run_polls, first_outcome, poll_outcome, h0, hnr, Option.orElse]
    · by_cases h1 : (f i).status = some 1
      · simp [run_polls, first_outcome, poll_outcome, h0, h1, Option.orElse]
      · simp [run_polls, first_outcome, poll_outcome, h0, h1, ih, Option.orElse]

/-- C6 (amended): the JSON poll loop of `solve_recaptcha` returns the
first terminal outcome — status 0 with `CAPCHA_NOT_READY` continues,
status 0 with any other reason fails with that reason, status 1 returns
the token, and a response with any other status silently continues rather
than terminating — timing out when the budget is exhausted with no
terminal outcome; the text poll loop of `_get_captcha_result` does stop at
once on any other response text, but returns a bare `None` that carries no
reason. -/
theorem poll_loop_characterization :
    (∀ (f : ℕ → PollResp) (i fuel : ℕ),
        run_polls f i fuel = (first_outcome f i fuel).getD SolveResult.timeout) ∧
    (∀ r : PollResp, r.status ≠ some 0 → r.status ≠ some 1 →
        poll_outcome r = Option.none) ∧
    (∀ (g : ℕ → String) (i fuel : ℕ),
        py_strip (g i) ≠ "CAPCHA_NOT_READY" →
        "OK|".data.isPrefixOf (py_strip (g i)).data = false →
        get_captcha_result g i (fuel + 1) = Option.none) := by
  refine ⟨fun f i fuel => run_polls_eq_first_outcome f fuel i, ?_, ?_⟩
  · intro r h0 h1
    simp [poll_outcome, h0, h1]
  · intro g i fuel hnr hok
    simp [get_captcha_result, hnr, hok]

/-- Witness for C6 (amended): a stream of service-error texts makes the
text poll loop stop on its first poll with `None`. -/
theorem poll_loop_characterization_witness :
    get_captcha_result text_polls_error 0 30 = Option.none :=
  poll_loop_characterization.2.2 text_polls_error 0 29 (by decide) (by decide)

/-- C7: `_fill_license_plate_form` succeeds exactly when one of the three
ordered strategies succeeds; the strategies attempted always form a prefix
of the ordered chain 1, 2, 3 (each tried at most once, name match first,
positional second, placeholder third, stopping at the first success); and
when the chain fails, `scrape_violations` aborts with the form-not-found
cause and an empty violation set. -/
theorem form_fill_strategy_chain :
    (∀ env : FillEnv,
      ((fill_license_plate_form env).1 = true ↔
        env.fillPlateByNameOk = true ∨ strategy2_fills env = true ∨
        strategy3_fills env = true) ∧
      (fill_license_plate_form env).2 ∈ [[1], [1, 2], [1, 2, 3]] ∧
      (env.fillPlateByNameOk = true → fill_license_plate_form env = (true, [1])) ∧
      (env.fillPlateByNameOk = false → strategy2_fills env = true →
        fill_license_plate_form env = (true, [1, 2]))) ∧
    (∀ (plate st : String) (env : ScrapeEnv),
      (fill_license_plate_form env.fill).1 = false →
      (scrape_violations plate st env).error = some "Could not fill license plate form" ∧
      (scrape_violations plate st env).success = false ∧
      (scrape_violations plate st env).violations = []) := by
  constructor
  · intro env
    by_cases h1 : env.fillPlateByNameOk = true
    · simp [fill_license_plate_form, h1]
    · by_cases h2 : strategy2_fills env = true
      · simp [fill_license_plate_form, h1, h2]
      · by_cases h3 : strategy3_fills env = true
        · simp [fill_license_plate_form, h1, h2, h3]
        · simp [fill_license_plate_form, h1, h2, h3]
  · intro plate st env h
    refine ⟨?_, ?_, ?_⟩ <;> simp [scrape_violations, h]

/-- Witness for C7: an environment in which the name-attribute fill fails,
only one text input exists, and no placeholder input is found — all three
strategies fail, the chain reports failure, and the scrape aborts with the
form-not-found cause. -/
theorem form_fill_strategy_chain_witness :
    fill_license_plate_form fill_env_all_fail = (false, [1, 2, 3]) ∧
    (scrape_violations "AW132U" "NY" scrape_env_fill_fail).error =
      some "Could not fill license plate form" ∧
    (scrape_violations "AW132U" "NY" scrape_env_fill_fail).success = false ∧
    (scrape_violations "AW132U" "NY" scrape_env_fill_fail).violations = [] :=
  ⟨by decide,
   (form_fill_strategy_chain.2 "AW132U" "NY" scrape_env_fill_fail (by decide)).1,
   (form_fill_strategy_chain.2 "AW132U" "NY" scrape_env_fill_fail (by decide)).2.1,
   (form_fill_strategy_chain.2 "AW132U" "NY" scrape_env_fill_fail (by decide)).2.2⟩

/-- Counterexample to C8: a run whose result wait times out still proceeds
and succeeds, but its debug info carries no `timedOut` entry at all — the
claimed `debugInfo.timedOut = true` marker is never written. -/
theorem wait_timeout_no_marker_counterexample :
    scrape_env_wait_timeout.waitTimedOut = true ∧
    (scrape_violations "AW132U" "NY" scrape_env_wait_timeout).success = true ∧
    (scrape_violations "AW132U" "NY" scrape_env_wait_timeout).totalViolations = 1 ∧
    List.lookup "timedOut"
      (scrape_violations "AW132U" "NY" scrape_env_wait_timeout).debugInfo = Option.none :=
  ⟨rfl, by decide, by decide, by decide⟩

/-- C8 (amended): on a result-wait timeout the search proceeds anyway —
the wait outcome has no effect whatever on the assembled result — but no
timed-out marker is recorded: the debug info of every run lacks a
`timedOut` key, the timeout being only logged. -/
theorem wait_timeout_proceeds_unmarked :
    (∀ (plate st : String) (env : ScrapeEnv) (b : Bool),
      scrape_violations plate st { env with waitTimedOut := b } =
        scrape_violations plate st env) ∧
    (∀ (plate st : String) (env : ScrapeEnv),
      List.lookup "timedOut" (scrape_violations plate st env).debugInfo = Option.none) := by
  constructor
  · intro plate st env b
    cases env
    simp [scrape_violations, wait_for_results_debug]
  · intro plate st env
    unfold scrape_violations
    split
    · rfl
    · split
      · rfl
      · split
        · rfl
        · split
          · rfl
          · rfl

/-- Counterexample to C9: the structured source succeeds with one
violation, the enhancement step raises (a browser launch failure), and the
final result carries both a non-None error and a non-empty violation list
— the claimed mutual exclusion fails on this exception path. -/
theorem error_with_violations_counterexample :
    api_ok_one.success = true ∧
    (get_enhanced_violation_data "K58ARK" "NY" api_ok_one enh_crash).error =
      some "browser launch failed" ∧
    (get_enhanced_violation_data "K58ARK" "NY" api_ok_one enh_crash).violations.isEmpty
      = false :=
  ⟨rfl, rfl, rfl⟩

/-- C9 (amended): a non-None error implies an empty violation list only
away from the exception paths that fire after the violations were stored —
on every path of `get_enhanced_violation_data` on which the enhancement
step does not raise, and on every path of `scrape_violations` on which
`browser.close()` does not raise (the other failures all precede the parse
that fills the list).  The exclusion breaks on the two post-storage
exception paths: an enhancement raise after the structured violations were
stored, and a `browser.close()` raise after the parsed violations and the
success flag were stored, which yields the close error next to the full
parsed violation list. -/
theorem error_empty_violations_amended :
    (∀ (plate st : String) (api : ApiResult) (enh : List PyDict → Except String EnhResult),
      (∀ vs, ∃ r, enh vs = Except.ok r) →
      (get_enhanced_violation_data plate st api enh).error ≠ Option.none →
      (get_enhanced_violation_data plate st api enh).violations = []) ∧
    (∀ (plate st : String) (env : ScrapeEnv),
      env.browserClose = Except.ok () →
      (scrape_violations plate st env).error ≠ Option.none →
      (scrape_violations plate st env).violations = []) ∧
    (∀ (plate st : String) (env : ScrapeEnv) (msg : String),
      (fill_license_plate_form env.fill).1 = true →
      (∃ c, env.captchaOutcome = Except.ok c) →
      env.submitOk = true →
      env.browserClose = Except.error msg →
      (scrape_violations plate st env).error = some msg ∧
      (scrape_violations plate st env).violations = parse_violations_v2 env.content plate) := by
  refine ⟨?_, ?_, ?_⟩
  · intro plate st api enh hok herr
    by_cases hs : api.success = true
    · by_cases hv : api.violations.isEmpty
      · simp [get_enhanced_violation_data, hs, hv] at herr
      · obtain ⟨r, hr⟩ := hok api.violations
        simp [get_enhanced_violation_data, hs, hv, hr] at herr
    · simp [get_enhanced_violation_data, hs, scrape_violations_only]
  · intro plate st env hclose herr
    by_cases hf : (fill_license_plate_form env.fill).1 = false
    · simp [scrape_violations, hf]
    · cases hc : env.captchaOutcome with
      | error msg => simp [scrape_violations, hf, hc]
      | ok csolved =>
        by_cases hsub : env.submitOk = false
        · simp [scrape_violations, hf, hc, hsub]
        · simp [scrape_violations, hf, hc, hsub, hclose] at herr
  · intro plate st env msg hf hcap hsub hclose
    obtain ⟨c, hc⟩ := hcap
    constructor <;> simp [scrape_violations, hf, hc, hsub, hclose]

/-- Witness for C9 (amended): with a non-raising enhancement step and a
failed structured source, the error-carrying result indeed has an empty
violation list. -/
theorem error_empty_violations_amended_witness :
    (get_enhanced_violation_data "AW716M" "NJ" api_down enh_id).violations = [] :=
  error_empty_violations_amended.1 "AW716M" "NJ" api_down enh_id
    (fun vs => ⟨{ enhancedViolations := vs, scrapedDetails := [], downloadedPdfs := [] }, rfl⟩)
    (by decide)

/-- C10: `_safe_float` is total — numbers pass through, numeric strings
parse, booleans coerce, and `None`, empty strings, zero, unparsable
strings, dicts and lists all collapse to `0.0` — and every formatted
violation record carries numeric values in all six money fields. -/
theorem safe_float_total_money_fields :
    safe_float PyVal.none = 0 ∧
    safe_float (PyVal.str "") = 0 ∧
    safe_float (PyVal.num 0) = 0 ∧
    (∀ q : ℚ, safe_float (PyVal.num q) = q) ∧
    (∀ (s : String) (q : ℚ), py_parse_float s = some q → safe_float (PyVal.str s) = q) ∧
    (∀ s : String, py_parse_float s = Option.none → safe_float (PyVal.str s) = 0) ∧
    (∀ b : Bool, safe_float (PyVal.bool b) = if b then 1 else 0) ∧
    (∀ d : PyDict, safe_float (PyVal.dict d) = 0) ∧
    (∀ l : List PyVal, safe_float (PyVal.list l) = 0) ∧
    (∀ (data : List PyDict) (fv : PyDict), fv ∈ format_violations data →
      ∀ k, k ∈ money_fields → ∃ q : ℚ, List.lookup k fv = some (PyVal.num q)) := by
  refine ⟨rfl, rfl, rfl, ?_, ?_, ?_, ?_, ?_, ?_, ?_⟩
  · intro q
    by_cases hq : q = 0
    · subst hq; rfl
    · simp [safe_float, py_truthy, py_float, hq]
  · intro s q hp
    by_cases hs : s = ""
    · rw [hs, show py_parse_float "" = Option.none from rfl] at hp
      exact Option.noConfusion hp
    · simp [safe_float, py_truthy, py_float, hs, hp]
  · intro s hp
    by_cases hs : s = ""
    · subst hs; rfl
    · simp [safe_float, py_truthy, py_float, hs, hp]
  · intro b; cases b <;> rfl
  · intro d; cases d <;> rfl
  · intro l; cases l <;> rfl
  · intro data fv hfv k hk
    simp only [format_violations, List.mem_map] at hfv
    obtain ⟨v, _, rfl⟩ := hfv
    fin_cases hk <;> exact ⟨_, rfl⟩

/-- Witness for C10: a parsable money string converts, an unparsable one
collapses to zero, and a formatted record holds a numeric amount due. -/
theorem safe_float_total_money_fields_witness :
    safe_float (PyVal.str "40") = 40 ∧
    safe_float (PyVal.str "e5") = 0 ∧
    (∃ q : ℚ, List.lookup "amount_due"
      (format_violation [("amount_due", PyVal.str "40")]) = some (PyVal.num q)) :=
  ⟨safe_float_total_money_fields.2.2.2.2.1 "40" 40 rfl,
   safe_float_total_money_fields.2.2.2.2.2.1 "e5" rfl,
   safe_float_total_money_fields.2.2.2.2.2.2.2.2.2
     [[("amount_due", PyVal.str "40")]] (format_violation [("amount_due", PyVal.str "40")])
     (by simp [format_violations]) "amount_due" (by decide)⟩
